import Mathlib

/-!
Verification of the medallion ETL pipeline (extractors, validator,
incremental planner, aggregator, consensus merger) of the nfl-analytics
data pipeline.  Each Python function referenced by the claims is shallowly
embedded as an executable Lean definition; numeric cells are modelled as
rationals (pandas floats), nullable cells as `Option ℚ` with pandas
comparison semantics (a comparison against a null/NaN value is `false`).
-/

namespace NFLPipeline

/-! ## Extraction Controller — `base_extractor.py`

`BaseExtractor.extract_with_retry` loops `attempt = 0 .. max_retries-1`:
a raised exception is logged as `(attempt+1, message)` and the loop
continues; a non-empty returned dataset is returned immediately; an empty
returned dataset falls through and the loop continues.  After the loop the
function returns `None`.  The fetch operation is modelled as a function
from the attempt index to the attempt's outcome. -/

/-- Outcome of one call of the abstract `extract` operation: either the
call raises an exception with a message, or it returns a dataset
(records are abstracted to rationals). -/
inductive AttemptResult where
  | raises (msg : String)
  | returns (data : List ℚ)
deriving DecidableEq

/-- One entry of the controller's `self.errors` list. -/
inductive ExtractionFailure where
  /-- appended by `extract_with_retry` for the raised attempt `attempt+1` -/
  | attemptFailure (attempt : ℕ) (msg : String)
  /-- appended by `run_extraction` when the extract/validate/load stage raises -/
  | stageFailure (msg : String)
  /-- appended by `run_extraction` from the validator's issue list -/
  | validationIssue (msg : String)
deriving DecidableEq

/-- The retry loop of `extract_with_retry`, processing attempts
`i, i+1, ..., i+k-1`.  Returns (result, logged failures in attempt order,
number of attempts actually made). -/
def retryLoop (fetch : ℕ → AttemptResult) :
    ℕ → ℕ → Option (List ℚ) × List ExtractionFailure × ℕ
  | _, 0 => (none, [], 0)
  | i, k + 1 =>
    match fetch i with
    | .returns d =>
      if d.isEmpty then
        -- "Extracted empty dataset": only a warning, the loop continues
        let r := retryLoop fetch (i + 1) k
        (r.1, r.2.1, r.2.2 + 1)
      else (some d, [], 1)
    | .raises m =>
      let r := retryLoop fetch (i + 1) k
      (r.1, .attemptFailure (i + 1) m :: r.2.1, r.2.2 + 1)

/-- `BaseExtractor.extract_with_retry`: run the retry loop from attempt 0
up to `max_retries` attempts. -/
def extract_with_retry (fetch : ℕ → AttemptResult) (max_retries : ℕ) :
    Option (List ℚ) × List ExtractionFailure × ℕ :=
  retryLoop fetch 0 max_retries

/-- `BaseExtractor.run_extraction`: the final status string together with
the accumulated `self.errors` list.  `validateFn` models the subclass
`validate` method (which may raise, hence `Except`), returning the cleaned
data and a list of issue strings; `loadFn` models `load_to_bronze`, which
catches its own exceptions and returns a success flag. -/
def run_extraction (fetch : ℕ → AttemptResult) (max_retries : ℕ)
    (validateFn : List ℚ → Except String (List ℚ × List String))
    (loadFn : List ℚ → Bool) : String × List ExtractionFailure :=
  let r := extract_with_retry fetch max_retries
  match r.1 with
  | none => ("no_data", r.2.1)
  | some d =>
    if d.isEmpty then ("no_data", r.2.1)
    else
      match validateFn d with
      | .error m => ("error", r.2.1 ++ [.stageFailure m])
      | .ok vd =>
        let errs2 := r.2.1 ++ vd.2.map ExtractionFailure.validationIssue
        if vd.1.isEmpty then ("validation_failed", errs2)
        else if loadFn vd.1 then ("success", errs2)
        else ("load_failed", errs2)

/-- A trivial validator model (accepts everything) used for concrete runs. -/
def acceptAllValidate : List ℚ → Except String (List ℚ × List String) :=
  fun d => .ok (d, [])

/-- A trivial loader model (always succeeds) used for concrete runs. -/
def alwaysOkLoad : List ℚ → Bool := fun _ => true

/-! ## Validator — `NFLverseExtractor.validate` in `nflverse_extractor.py`

A DataFrame is a column list plus rows mapping a column name to a
nullable rational cell; string-valued identity cells (`game_id`,
`play_id`, ...) are encoded as rationals since `validate` only compares
them for equality.  Pandas comparison semantics: a comparison against a
null (NaN) cell is `false` on both sides of the predicate. -/

/-- One row: column name to nullable cell. -/
def VRow : Type := String → Option ℚ

/-- A batch with its schema. -/
structure VFrame where
  cols : List String
  rows : List VRow

/-- Pandas `cell < c` (false on null). -/
def oltB (x : Option ℚ) (c : ℚ) : Bool :=
  match x with | none => false | some v => decide (v < c)

/-- Pandas `cell > c` (false on null). -/
def ogtB (x : Option ℚ) (c : ℚ) : Bool :=
  match x with | none => false | some v => decide (c < v)

/-- Pandas `cell >= c` (false on null). -/
def ogeB (x : Option ℚ) (c : ℚ) : Bool :=
  match x with | none => false | some v => decide (c ≤ v)

/-- Pandas `cell <= c` (false on null). -/
def oleB (x : Option ℚ) (c : ℚ) : Bool :=
  match x with | none => false | some v => decide (v ≤ c)

/-- One entry of the validator's issue list, by the message the code
formats at that step. -/
inductive VIssue where
  /-- "Missing required columns: ..." (whole batch rejected) -/
  | missingColumns (cols : List String)
  /-- "Removed N duplicate plays" -/
  | duplicatePlays (removed : ℕ)
  /-- "Found N records with invalid seasons" -/
  | invalidSeasons (count : ℕ)
  /-- "Found N records with invalid weeks" -/
  | invalidWeeks (count : ℕ)
  /-- "Found N null values in col" -/
  | nullValues (col : String) (count : ℕ)
  /-- "Found N records with col out of range [lo, hi]" (values then capped) -/
  | outOfRange (col : String) (count : ℕ)
deriving DecidableEq

/-- The required-column list chosen from the batch shape
(play-by-play vs player stats vs other). -/
def requiredCols (cols : List String) : List String :=
  if "play_id" ∈ cols then ["game_id", "play_id", "season", "week"]
  else if "player_id" ∈ cols then ["player_id", "season", "week"]
  else ["season"]

/-- `drop_duplicates(subset=..., keep='first')`: keep the first row for
each key, preserving order. -/
def dedupBy (key : VRow → Option ℚ × Option ℚ) (rows : List VRow) : List VRow :=
  (rows.foldl
    (fun (acc : List VRow × List (Option ℚ × Option ℚ)) r =>
      if key r ∈ acc.2 then acc else (acc.1 ++ [r], key r :: acc.2))
    ([], [])).1

/-- Step 2: duplicate removal on (game_id, play_id) when both exist. -/
def dupStep (cols : List String) (rows : List VRow) : List VRow × List VIssue :=
  if "play_id" ∈ cols ∧ "game_id" ∈ cols then
    let rows2 := dedupBy (fun r => (r "game_id", r "play_id")) rows
    if rows2.length < rows.length then
      (rows2, [.duplicatePlays (rows.length - rows2.length)])
    else (rows2, [])
  else (rows, [])

/-- Step 3: season domain check; out-of-domain rows are dropped (the
filter only runs when at least one non-null out-of-domain value exists,
exactly as in the code). -/
def seasonStep (currentYear : ℤ) (cols : List String) (rows : List VRow) :
    List VRow × List VIssue :=
  if "season" ∈ cols then
    let hi : ℚ := Rat.ofInt (currentYear + 1)
    let invalid := rows.filter fun r => oltB (r "season") 2000 || ogtB (r "season") hi
    if ¬ invalid.isEmpty then
      (rows.filter (fun r => ogeB (r "season") 2000 && oleB (r "season") hi),
       [.invalidSeasons invalid.length])
    else (rows, [])
  else (rows, [])

/-- Step 4: week domain check [1, 22]; out-of-domain rows are dropped. -/
def weekStep (cols : List String) (rows : List VRow) : List VRow × List VIssue :=
  if "week" ∈ cols then
    let invalid := rows.filter fun r => oltB (r "week") 1 || ogtB (r "week") 22
    if ¬ invalid.isEmpty then
      (rows.filter (fun r => ogeB (r "week") 1 && oleB (r "week") 22),
       [.invalidWeeks invalid.length])
    else (rows, [])
  else (rows, [])

/-- Step 5: per required column, count nulls, report, and drop the rows
(sequentially, in required-column order). -/
def nullStep : List String → List VRow × List VIssue → List VRow × List VIssue
  | [], st => st
  | col :: req, st =>
    let cnt := (st.1.filter fun r => r col = none).length
    if 0 < cnt then
      nullStep req (st.1.filter (fun r => ¬ r col = none), st.2 ++ [.nullValues col cnt])
    else nullStep req st

/-- The configured numeric measurement ranges, in the code's dict order. -/
def numericValidations : List (String × ℚ × ℚ) :=
  [("yards_gained", -99, 99), ("air_yards", -99, 99),
   ("yards_after_catch", 0, 99), ("fantasy_points_ppr", -10, 100)]

/-- Cap a cell into [lo, hi]; nulls are untouched (pandas `.loc` masks
are false on NaN). -/
def capCell (lo hi : ℚ) (x : Option ℚ) : Option ℚ :=
  match x with
  | none => none
  | some v => if v < lo then some lo else if hi < v then some hi else some v

/-- The loop body of step 6 over the configured numeric validations. -/
def capRun (cols : List String) :
    List (String × ℚ × ℚ) → List VRow × List VIssue → List VRow × List VIssue
  | [], st => st
  | v :: vs, st =>
    if v.1 ∈ cols then
      let bad := (st.1.filter fun r => oltB (r v.1) v.2.1 || ogtB (r v.1) v.2.2).length
      if 0 < bad then
        capRun cols vs
          (st.1.map (fun r => fun c => if c = v.1 then capCell v.2.1 v.2.2 (r c) else r c),
           st.2 ++ [.outOfRange v.1 bad])
      else capRun cols vs st
    else capRun cols vs st

/-- Step 6: per configured numeric column, count out-of-range values,
report, and cap them to the nearest bound (rows are kept). -/
def capStep (cols : List String) (st : List VRow × List VIssue) :
    List VRow × List VIssue :=
  capRun cols numericValidations st

/-- `NFLverseExtractor.validate`: required-column rejection, duplicate
removal, season drop, week drop, null drop on required columns, then
numeric capping; the issue list is appended in that execution order. -/
def validate (currentYear : ℤ) (df : VFrame) : VFrame × List VIssue :=
  let req := requiredCols df.cols
  let missing := req.filter fun c => ¬ c ∈ df.cols
  if ¬ missing.isEmpty then (⟨[], []⟩, [.missingColumns missing])
  else
    let s2 := dupStep df.cols df.rows
    let s3 := seasonStep currentYear df.cols s2.1
    let s4 := weekStep df.cols s3.1
    let s5 := nullStep req (s4.1, [])
    let s6 := capStep df.cols (s5.1, [])
    (⟨df.cols, s6.1⟩, s2.2 ++ s3.2 ++ s4.2 ++ s5.2 ++ s6.2)

/-! ## Incremental Planner — `NFLverseExtractor.extract_incremental`

The fetch operation (`self.extract`) is abstracted as a function of the
request it is called with; rows carry their season and week (the data
produced by the extractor always has a `week` column).  The planner
returns the request it issued together with the data. -/

/-- What `extract_incremental` asks the extraction for: the config-default
full scope (no `seasons` argument), an explicit season list, or nothing
(the up-to-date no-op). -/
inductive IncRequest where
  | fullDefault
  | seasons (l : List ℤ)
  | nothing
deriving DecidableEq

/-- A row of extracted data as seen by the planner. -/
structure IncRow where
  season : ℤ
  week : ℤ
deriving DecidableEq

/-- The current real-world season: the calendar year from September
onwards, the previous year before September. -/
def current_season (year month : ℤ) : ℤ :=
  if 9 ≤ month then year else year - 1

/-- The seasons `max_season+1 .. cur` (both ends included). -/
def seasonsToExtract (maxSeason cur : ℤ) : List ℤ :=
  (List.range (cur - maxSeason).toNat).map fun i => maxSeason + 1 + i

/-- `NFLverseExtractor.extract_incremental`: high-water mark `hwm` is
`(max_season, max_week)` read from the store (`none` when the store is
empty).  Returns the request issued and the resulting data. -/
def extract_incremental (year month : ℤ) (force_full : Bool)
    (hwm : Option (ℤ × ℤ)) (fetch : IncRequest → List IncRow) :
    IncRequest × List IncRow :=
  if force_full then (.fullDefault, fetch .fullDefault)
  else
    match hwm with
    | none => (.fullDefault, fetch .fullDefault)
    | some m =>
      let cur := current_season year month
      if m.1 < cur then
        let s := seasonsToExtract m.1 cur
        (.seasons s, fetch (.seasons s))
      else if m.1 = cur ∧ m.2 < 22 then
        (.seasons [cur], (fetch (.seasons [cur])).filter fun r => m.2 < r.week)
      else (.nothing, [])

/-! ## Consensus Merger — `consensus_aggregator.py`

`calculate_fantasy_points` is per-row arithmetic over nullable projection
fields (`fill_null(0)`); `silver_to_gold` computes per-group source count
and the sample standard deviation (pandas `std`, `ddof=1`, NaN on a
single-element group) of `fantasy_points_ppr`, rounds the whole
aggregated frame to two decimals (`.agg(...).round(2)`), and classifies
confidence from the rounded `fantasy_points_ppr_std` column.  Since the
standard deviation is an irrational square root, the embedding carries
the sample variance and expresses the code's comparison
`round2 (sqrt variance) < c` by the exact equivalent rational condition
`variance < (c - 1/200)²` (see `roundedStdLt`); a NaN standard deviation
(singleton group) compares as `false`. -/

/-- One silver projection row's nullable projection fields. -/
structure ProjRow where
  proj_passing_yards : Option ℚ
  proj_passing_touchdowns : Option ℚ
  proj_passing_interceptions : Option ℚ
  proj_rushing_yards : Option ℚ
  proj_rushing_touchdowns : Option ℚ
  proj_receiving_yards : Option ℚ
  proj_receiving_touchdowns : Option ℚ
  proj_receiving_receptions : Option ℚ

/-- Polars `fill_null(0)`. -/
def fill0 (x : Option ℚ) : ℚ := x.getD 0

/-- Standard scoring from `calculate_fantasy_points`. -/
def fantasy_points_standard (r : ProjRow) : ℚ :=
  fill0 r.proj_passing_yards * 0.04 +
  fill0 r.proj_passing_touchdowns * 4 +
  fill0 r.proj_passing_interceptions * (-2) +
  fill0 r.proj_rushing_yards * 0.1 +
  fill0 r.proj_rushing_touchdowns * 6 +
  fill0 r.proj_receiving_yards * 0.1 +
  fill0 r.proj_receiving_touchdowns * 6

/-- PPR scoring from `calculate_fantasy_points`. -/
def fantasy_points_ppr (r : ProjRow) : ℚ :=
  fantasy_points_standard r + fill0 r.proj_receiving_receptions * 1.0

/-- Half-PPR scoring from `calculate_fantasy_points`. -/
def fantasy_points_half_ppr (r : ProjRow) : ℚ :=
  fantasy_points_standard r + fill0 r.proj_receiving_receptions * 0.5

/-- Pandas sample variance (`ddof=1`): NaN (here `none`) on a group of
at most one element. -/
def sampleVariance (xs : List ℚ) : Option ℚ :=
  if xs.length ≤ 1 then none
  else
    let n : ℚ := xs.length
    let mu := xs.sum / n
    some ((xs.map fun x => (x - mu) ^ 2).sum / (n - 1))

/-- The code's `std_dev < c` for a group's primary values, where
`std_dev` is the column produced by `.agg(...).round(2)` — i.e. the
two-decimal-rounded standard deviation `round2 (sqrt variance)`.  A NaN
standard deviation (singleton group) compares as `false`.  Otherwise,
for the thresholds used by the code (`c = 2` and `c = 4`):
`round2 s < c` holds iff `roundHalfEven (100·s) ≤ 100·c − 1` iff
`100·s < 100·c − 1/2` (the tie `100·c − 1/2` rounds up to the even
integer `100·c`), i.e. iff `s < c − 1/200`; squaring the non-negative
sides, the comparison on the variance is `variance < (c − 1/200)²`. -/
def roundedStdLt (xs : List ℚ) (c : ℚ) : Bool :=
  match sampleVariance xs with
  | none => false
  | some v => decide (v < (c - 1 / 200) * (c - 1 / 200))

/-- `calculate_confidence` in `silver_to_gold`, applied to a merged
group: `xs` is the group's surviving `fantasy_points_ppr` values, so
`num_sources = xs.length` and `std_dev` is the rounded sample standard
deviation read from the `.round(2)`-ed aggregate frame. -/
def calculate_confidence (xs : List ℚ) : String :=
  if 2 ≤ xs.length ∧ roundedStdLt xs 2 then "HIGH"
  else if 2 ≤ xs.length ∨ roundedStdLt xs 4 then "MEDIUM"
  else "LOW"

/-! ## Aggregator — `StatsAggregator` in `transformers/aggregator.py`

Records carry the grouping-key fields of the spec's data model (subject
identifier and temporal key, always present) and a bag of numeric stat
columns; the frame's column list `cols` governs pandas'
`if col in df.columns` presence checks.  `groupby(...).agg(...)` is
modelled as: one output row per distinct key in order of first
appearance, each reducing its fiber of the input. -/

/-- `StatsAggregator.SUM_COLUMNS`. -/
def SUM_COLUMNS : List String :=
  ["passing_attempts", "completions", "passing_yards", "passing_tds", "interceptions",
   "sacks", "sack_yards", "passing_2pt",
   "carries", "rushing_attempts", "rushing_yards", "rushing_tds", "rushing_2pt",
   "targets", "receptions", "receiving_yards", "receiving_tds", "receiving_2pt",
   "fumbles", "fumbles_lost",
   "fantasy_points", "fantasy_points_ppr", "fantasy_points_half_ppr",
   "red_zone_targets", "red_zone_carries", "red_zone_touches", "red_zone_tds",
   "air_yards", "yards_after_catch",
   "touches", "opportunities"]

/-- `StatsAggregator.MEAN_COLUMNS`. -/
def MEAN_COLUMNS : List String :=
  ["snap_percentage", "target_share", "air_yards_share",
   "yards_per_target", "yards_per_carry", "catch_rate"]

/-- `StatsAggregator.MAX_COLUMNS`. -/
def MAX_COLUMNS : List String :=
  ["rushing_long", "receiving_long", "passing_long"]

/-- Round to the nearest integer, ties to even (numpy rounding). -/
def roundHalfEven (q : ℚ) : ℤ :=
  let f := ⌊q⌋
  let frac := q - f
  if frac < 1 / 2 then f
  else if 1 / 2 < frac then f + 1
  else if f % 2 = 0 then f else f + 1

/-- Numpy / pandas `.round(2)`. -/
def round2 (q : ℚ) : ℚ := (roundHalfEven (q * 100) : ℚ) / 100

/-- Pandas `max` over a (nonempty) group. -/
def qMax : List ℚ → ℚ
  | [] => 0
  | x :: xs => xs.foldl max x

/-- A game-level record (input of `aggregate_to_week_level`). -/
structure GRow where
  game_id : String
  player_id : String
  player_name : String
  position : String
  team : String
  season : ℤ
  week : ℤ
  stats : String → ℚ

/-- The week-level grouping key. -/
structure WKey where
  player_id : String
  player_name : String
  position : String
  team : String
  season : ℤ
  week : ℤ
deriving DecidableEq

/-- Grouping key of a game-level record. -/
def weekKeyOf (r : GRow) : WKey :=
  ⟨r.player_id, r.player_name, r.position, r.team, r.season, r.week⟩

/-- The reducers of the week-level `agg` dict: sum for `SUM_COLUMNS`,
mean for `MEAN_COLUMNS`, max for `MAX_COLUMNS` — each only when the
column is present in the input frame. -/
def weekAggStats (cols : List String) (g : List GRow) : String → ℚ := fun c =>
  if c ∈ cols then
    if c ∈ SUM_COLUMNS then (g.map fun r => r.stats c).sum
    else if c ∈ MEAN_COLUMNS then (g.map fun r => r.stats c).sum / (g.length : ℚ)
    else if c ∈ MAX_COLUMNS then qMax (g.map fun r => r.stats c)
    else 0
  else 0

/-- The columns of the aggregated week-level frame (grouping keys,
`games_played`, and every aggregated stat column). -/
def weekFrameCols (cols : List String) : List String :=
  ["player_id", "player_name", "position", "team", "season", "week", "games_played"] ++
    cols.filter fun c => c ∈ SUM_COLUMNS ∨ c ∈ MEAN_COLUMNS ∨ c ∈ MAX_COLUMNS

/-- `StatsAggregator._calculate_efficiency_metrics`: each derived ratio
is written (overwriting any same-named column) when its numerator and
denominator columns are present; `np.where(den > 0, num/den·scale, 0)`
followed by `.round(2)`. -/
def effStats (cols : List String) (f : String → ℚ) : String → ℚ := fun c =>
  if c = "completion_pct" ∧ "completions" ∈ cols ∧ "passing_attempts" ∈ cols then
    round2 (if 0 < f "passing_attempts" then f "completions" / f "passing_attempts" * 100 else 0)
  else if c = "catch_rate" ∧ "receptions" ∈ cols ∧ "targets" ∈ cols then
    round2 (if 0 < f "targets" then f "receptions" / f "targets" * 100 else 0)
  else if c = "yards_per_attempt" ∧ "passing_yards" ∈ cols ∧ "passing_attempts" ∈ cols then
    round2 (if 0 < f "passing_attempts" then f "passing_yards" / f "passing_attempts" else 0)
  else if c = "yards_per_carry" ∧ "rushing_yards" ∈ cols ∧ "rushing_attempts" ∈ cols then
    round2 (if 0 < f "rushing_attempts" then f "rushing_yards" / f "rushing_attempts" else 0)
  else if c = "yards_per_carry" ∧ "rushing_yards" ∈ cols ∧ "carries" ∈ cols then
    round2 (if 0 < f "carries" then f "rushing_yards" / f "carries" else 0)
  else if c = "yards_per_reception" ∧ "receiving_yards" ∈ cols ∧ "receptions" ∈ cols then
    round2 (if 0 < f "receptions" then f "receiving_yards" / f "receptions" else 0)
  else if c = "yards_per_target" ∧ "receiving_yards" ∈ cols ∧ "targets" ∈ cols then
    round2 (if 0 < f "targets" then f "receiving_yards" / f "targets" else 0)
  else if c = "passing_td_rate" ∧ "passing_tds" ∈ cols ∧ "passing_attempts" ∈ cols then
    round2 (if 0 < f "passing_attempts" then f "passing_tds" / f "passing_attempts" * 100 else 0)
  else if c = "red_zone_td_rate" ∧ "red_zone_tds" ∈ cols ∧ "red_zone_touches" ∈ cols then
    round2 (if 0 < f "red_zone_touches" then f "red_zone_tds" / f "red_zone_touches" * 100 else 0)
  else f c

/-- A week-level record (output of `aggregate_to_week_level`, input of
`aggregate_to_season_level`). -/
structure WRow where
  player_id : String
  player_name : String
  position : String
  team : String
  season : ℤ
  week : ℤ
  games_played : ℕ
  stats : String → ℚ

/-- One output row of `aggregate_to_week_level` for a group key:
`games_played = nunique game_id`, reduced stats, then the efficiency
metrics applied to the aggregated frame. -/
def weekRowOf (cols : List String) (rows : List GRow) (k : WKey) : WRow :=
  let g := rows.filter fun r => weekKeyOf r = k
  { player_id := k.player_id, player_name := k.player_name, position := k.position,
    team := k.team, season := k.season, week := k.week,
    games_played := ((g.map fun r => r.game_id).dedup).length,
    stats := effStats (weekFrameCols cols) (weekAggStats cols g) }

/-- `StatsAggregator.aggregate_to_week_level`: group game records by
(player, season, week) and reduce each group. -/
def aggregate_to_week_level (cols : List String) (rows : List GRow) : List WRow :=
  ((rows.map weekKeyOf).dedup).map (weekRowOf cols rows)

/-- The season-level grouping key. -/
structure SKey where
  player_id : String
  player_name : String
  position : String
  team : String
  season : ℤ
deriving DecidableEq

/-- Grouping key of a week-level record. -/
def seasonKeyOf (w : WRow) : SKey :=
  ⟨w.player_id, w.player_name, w.position, w.team, w.season⟩

/-- A season-level record.  Pandas renames the reduced columns, so the
maps carry the prefixes structurally: `totals c` is the value of column
`total_c` and `avgs c` the value of column `avg_c`. -/
structure SRow where
  player_id : String
  player_name : String
  position : String
  team : String
  season : ℤ
  games_played : ℚ
  totals : String → ℚ
  avgs : String → ℚ

/-- `StatsAggregator.aggregate_to_season_level`: group week records by
(player, season); `games_played` is summed, each present `SUM_COLUMNS`
column is summed into `total_c`, each present `MEAN_COLUMNS` column is
averaged into `avg_c`; afterwards, for each present `SUM_COLUMNS` column,
`avg_c` is (over)written as `round2 (total_c / games_played)`
(`SUM_COLUMNS` and `MEAN_COLUMNS` are disjoint, so no aggregated mean is
overwritten).  `cols` is the input week-level frame's column list. -/
def seasonRowOf (cols : List String) (wrows : List WRow) (k : SKey) : SRow :=
  let g := wrows.filter fun w => seasonKeyOf w = k
  let gp : ℚ := (g.map fun w => (w.games_played : ℚ)).sum
  { player_id := k.player_id, player_name := k.player_name, position := k.position,
    team := k.team, season := k.season,
    games_played := gp,
    totals := fun c =>
      if c ∈ SUM_COLUMNS ∧ c ∈ cols then (g.map fun w => w.stats c).sum else 0,
    avgs := fun c =>
      if c ∈ SUM_COLUMNS ∧ c ∈ cols then
        round2 ((g.map fun w => w.stats c).sum / gp)
      else if c ∈ MEAN_COLUMNS ∧ c ∈ cols then
        (g.map fun w => w.stats c).sum / (g.length : ℚ)
      else 0 }

/-- `StatsAggregator.aggregate_to_season_level`: group week records by
(player, season) and reduce each group. -/
def aggregate_to_season_level (cols : List String) (wrows : List WRow) : List SRow :=
  ((wrows.map seasonKeyOf).dedup).map (seasonRowOf cols wrows)

/-! ## Concrete instances used as counterexamples and witnesses -/

/-- Is the issue a numeric-capping (out-of-range) issue? -/
def capIssueB : VIssue → Bool
  | .outOfRange _ _ => true
  | _ => false

/-- Is the issue a null-in-required-field issue? -/
def nullIssueB : VIssue → Bool
  | .nullValues _ _ => true
  | _ => false

/-- Build a row from an association list; absent columns are null. -/
def mkRow (l : List (String × ℚ)) : VRow := fun c => l.lookup c

/-- A fetch operation that raises on every attempt. -/
def alwaysRaises : ℕ → AttemptResult := fun _ => .raises "boom"

/-- A fetch operation that returns an empty dataset on the first attempt
and a non-empty one afterwards. -/
def emptyThenData : ℕ → AttemptResult := fun i =>
  if i = 0 then .returns [] else .returns [1]

/-- A fetch operation that always returns an empty dataset. -/
def alwaysEmpty : ℕ → AttemptResult := fun _ => .returns []

/-- Play-by-play batch with one out-of-domain season row and one
out-of-range `yards_gained` row. -/
def dfC5 : VFrame :=
  ⟨["game_id", "play_id", "season", "week", "yards_gained"],
   [mkRow [("game_id", 1), ("play_id", 1), ("season", 1899), ("week", 1), ("yards_gained", 5)],
    mkRow [("game_id", 1), ("play_id", 2), ("season", 2023), ("week", 1), ("yards_gained", -150)]]⟩

/-- Play-by-play batch with one null `week` (required field) row and one
out-of-range `yards_gained` row. -/
def dfC6 : VFrame :=
  ⟨["game_id", "play_id", "season", "week", "yards_gained"],
   [mkRow [("game_id", 1), ("play_id", 1), ("season", 2023), ("yards_gained", 5)],
    mkRow [("game_id", 1), ("play_id", 2), ("season", 2023), ("week", 1), ("yards_gained", -150)]]⟩

/-- A provider returning season-2023 data (weeks 5, 12, 22) when asked
for season 2023. -/
def c7Fetch : IncRequest → List IncRow := fun req =>
  match req with
  | .seasons [2023] => [⟨2023, 5⟩, ⟨2023, 12⟩, ⟨2023, 22⟩]
  | _ => []

/-- Two game records of the same player-week in different games. -/
def c1Rows : List GRow :=
  [{ game_id := "g1", player_id := "p1", player_name := "A", position := "WR",
     team := "T", season := 2023, week := 1,
     stats := fun c => if c = "receptions" then 3 else 0 },
   { game_id := "g2", player_id := "p1", player_name := "A", position := "WR",
     team := "T", season := 2023, week := 1,
     stats := fun c => if c = "receptions" then 5 else 0 }]

/-- Columns of the week-level frame fed into season aggregation. -/
def c8Cols : List String := ["receptions", "targets", "catch_rate"]

/-- Week 1: 1 reception on 2 targets, weekly catch rate 50. -/
def c8Week1 : WRow :=
  { player_id := "p1", player_name := "A", position := "WR", team := "T",
    season := 2023, week := 1, games_played := 1,
    stats := fun c =>
      if c = "receptions" then 1 else if c = "targets" then 2
      else if c = "catch_rate" then 50 else 0 }

/-- Week 2: 3 receptions on 4 targets, weekly catch rate 75. -/
def c8Week2 : WRow :=
  { player_id := "p1", player_name := "A", position := "WR", team := "T",
    season := 2023, week := 2, games_played := 1,
    stats := fun c =>
      if c = "receptions" then 3 else if c = "targets" then 4
      else if c = "catch_rate" then 75 else 0 }

/-- A projection row with null receptions. -/
def c10Row : ProjRow :=
  ⟨some 250, some 2, some 1, some 30, none, some 80, some 1, none⟩

/-! ## Theorems -/

/-- C10: in `calculate_fantasy_points`, `fantasy_points_ppr` equals the
standard score plus 1.0 times the (null-as-0) projected receptions and
`fantasy_points_half_ppr` equals the standard score plus 0.5 times the
projected receptions; hence whenever the projected receptions are null or
non-negative, standard ≤ half-PPR ≤ PPR. -/
theorem C10_scoring_identity (r : ProjRow) :
    fantasy_points_ppr r
      = fantasy_points_standard r + 1.0 * fill0 r.proj_receiving_receptions
    ∧ fantasy_points_half_ppr r
      = fantasy_points_standard r + 0.5 * fill0 r.proj_receiving_receptions
    ∧ ((r.proj_receiving_receptions = none ∨
          ∀ x, r.proj_receiving_receptions = some x → 0 ≤ x) →
        fantasy_points_standard r ≤ fantasy_points_half_ppr r ∧
          fantasy_points_half_ppr r ≤ fantasy_points_ppr r) := by
  refine ⟨by unfold fantasy_points_ppr; ring, by unfold fantasy_points_half_ppr; ring, ?_⟩
  intro h
  have hrec : 0 ≤ fill0 r.proj_receiving_receptions := by
    rcases h with h | h
    · simp [fill0, h]
    · cases hx : r.proj_receiving_receptions with
      | none => simp [fill0, hx]
      | some v => simpa [fill0, hx] using h v hx
  unfold fantasy_points_ppr fantasy_points_half_ppr
  constructor <;> nlinarith [hrec]

/-- C10 witness: the monotonicity hypothesis holds at a concrete row with
null projected receptions. -/
theorem C10_scoring_identity_witness :
    (c10Row.proj_receiving_receptions = none ∨
      ∀ x, c10Row.proj_receiving_receptions = some x → 0 ≤ x)
    ∧ fantasy_points_standard c10Row ≤ fantasy_points_half_ppr c10Row :=
  ⟨Or.inl rfl, ((C10_scoring_identity c10Row).2.2 (Or.inl rfl)).1⟩

/-- C4 counterexample: the group {10, 10, 13.46} has source count 3 and
exact sample variance 29929/7500 ≈ 3.99053 < 2² — so its exact standard
deviation is below 2.0 and the claim requires HIGH — yet the code rounds
`fantasy_points_ppr_std` (≈ 1.99763) to 2.00 before comparing and
classifies the group MEDIUM, not HIGH. -/
theorem C4_counterexample :
    2 ≤ ([10, 10, 1346 / 100] : List ℚ).length
    ∧ sampleVariance [10, 10, 1346 / 100] = some (29929 / 7500)
    ∧ ((29929 / 7500 : ℚ) < 2 * 2)
    ∧ calculate_confidence [10, 10, 1346 / 100] = "MEDIUM"
    ∧ ¬ calculate_confidence [10, 10, 1346 / 100] = "HIGH" := by
  have hvar : sampleVariance [10, 10, 1346 / 100] = some (29929 / 7500) := by
    norm_num [sampleVariance]
  have h2 : roundedStdLt [10, 10, 1346 / 100] 2 = false := by
    unfold roundedStdLt
    rw [hvar]
    simp only [decide_eq_false_iff_not, not_lt]
    norm_num
  have hmed : calculate_confidence [10, 10, 1346 / 100] = "MEDIUM" := by
    unfold calculate_confidence
    simp [h2]
  refine ⟨by norm_num, hvar, by norm_num, hmed, ?_⟩
  rw [hmed]
  decide

/-- C4 amended: for a merged group whose surviving primary values are
`xs` (source count `xs.length`), the code compares the two-decimal
rounded standard deviation, so the classification is HIGH iff the count
is at least 2 and the rounded deviation is below 2 (exact deviation
below 1.995, i.e. variance below (2 − 1/200)²); MEDIUM iff (count at
least 2 or the rounded deviation is below 4, i.e. exact deviation below
3.995) and not HIGH; LOW otherwise; in particular a single-source group
(NaN deviation) is LOW. -/
theorem C4_confidence_rounded (xs : List ℚ) :
    (calculate_confidence xs = "HIGH" ↔ 2 ≤ xs.length ∧ roundedStdLt xs 2 = true)
    ∧ (calculate_confidence xs = "MEDIUM" ↔
        (2 ≤ xs.length ∨ roundedStdLt xs 4 = true) ∧
          ¬ (2 ≤ xs.length ∧ roundedStdLt xs 2 = true))
    ∧ (xs.length = 1 → calculate_confidence xs = "LOW") := by
  have hone : xs.length = 1 → ∀ c, roundedStdLt xs c = false := by
    intro h c
    unfold roundedStdLt sampleVariance
    simp [h]
  unfold calculate_confidence
  split_ifs with h1 h2
  · refine ⟨by simp [h1], ?_, ?_⟩
    · constructor
      · intro h; exact absurd h (by decide)
      · intro h; exact absurd h1 h.2
    · intro hlen; exact absurd h1.1 (by omega)
  · refine ⟨?_, by simp [h1, h2], ?_⟩
    · constructor
      · intro h; exact absurd h (by decide)
      · intro h; exact absurd h h1
    · intro hlen
      rcases h2 with h2 | h2
      · exact absurd h2 (by omega)
      · rw [hone hlen 4] at h2; exact absurd h2 (by simp)
  · refine ⟨?_, ?_, fun _ => rfl⟩
    · constructor
      · intro h; exact absurd h (by decide)
      · intro h; exact absurd h h1
    · constructor
      · intro h; exact absurd h (by decide)
      · intro h; exact absurd h.1 h2

/-- C4 amended witness: the single-source hypothesis is satisfiable — a
one-element group is classified LOW. -/
theorem C4_confidence_rounded_witness :
    calculate_confidence [10] = "LOW" :=
  (C4_confidence_rounded [10]).2.2 rfl

/-- Rounding a zero ratio gives zero. -/
theorem round2_zero : round2 0 = 0 := by
  norm_num [round2, roundHalfEven]

/-- C9: every derived efficiency ratio computed by
`_calculate_efficiency_metrics` is exactly 0 whenever its denominator
column's value is 0 (given the ratio is computed, i.e. numerator and
denominator columns are present); the computation is total, so no
NaN/infinity/division error can arise. -/
theorem C9_zero_denominator (cols : List String) (f : String → ℚ) :
    ("completions" ∈ cols ∧ "passing_attempts" ∈ cols ∧ f "passing_attempts" = 0 →
        effStats cols f "completion_pct" = 0)
    ∧ ("receptions" ∈ cols ∧ "targets" ∈ cols ∧ f "targets" = 0 →
        effStats cols f "catch_rate" = 0)
    ∧ ("passing_yards" ∈ cols ∧ "passing_attempts" ∈ cols ∧ f "passing_attempts" = 0 →
        effStats cols f "yards_per_attempt" = 0)
    ∧ ("rushing_yards" ∈ cols ∧ "rushing_attempts" ∈ cols ∧ f "rushing_attempts" = 0 →
        effStats cols f "yards_per_carry" = 0)
    ∧ ("rushing_yards" ∈ cols ∧ ¬ "rushing_attempts" ∈ cols ∧ "carries" ∈ cols ∧
          f "carries" = 0 →
        effStats cols f "yards_per_carry" = 0)
    ∧ ("receiving_yards" ∈ cols ∧ "receptions" ∈ cols ∧ f "receptions" = 0 →
        effStats cols f "yards_per_reception" = 0)
    ∧ ("receiving_yards" ∈ cols ∧ "targets" ∈ cols ∧ f "targets" = 0 →
        effStats cols f "yards_per_target" = 0)
    ∧ ("passing_tds" ∈ cols ∧ "passing_attempts" ∈ cols ∧ f "passing_attempts" = 0 →
        effStats cols f "passing_td_rate" = 0)
    ∧ ("red_zone_tds" ∈ cols ∧ "red_zone_touches" ∈ cols ∧ f "red_zone_touches" = 0 →
        effStats cols f "red_zone_td_rate" = 0) := by
  refine ⟨?_, ?_, ?_, ?_, ?_, ?_, ?_, ?_, ?_⟩ <;>
    rintro ⟨h1, h2, h3⟩ <;> simp [effStats, h1, h2, h3, round2_zero]

/-- C9 witness: on a frame where the denominator stat is 0, the computed
completion percentage is 0. -/
theorem C9_zero_denominator_witness :
    ("completions" ∈ ["completions", "passing_attempts"]
      ∧ "passing_attempts" ∈ ["completions", "passing_attempts"]
      ∧ (fun _ : String => (0 : ℚ)) "passing_attempts" = 0)
    ∧ effStats ["completions", "passing_attempts"] (fun _ => 0) "completion_pct" = 0 :=
  ⟨⟨by decide, by decide, rfl⟩,
   (C9_zero_denominator ["completions", "passing_attempts"] (fun _ => 0)).1
     ⟨by decide, by decide, rfl⟩⟩

/-- C7: with high-water mark (season 2023, week 10) and current season
2023, the planner requests only season 2023 (no full re-extraction) and
its returned data holds only season-2023 records with week strictly
above 10 (hence weeks 11 through 22, given the provider's data has weeks
1 through 22). -/
theorem C7_incremental_week_case (year month : ℤ) (fetch : IncRequest → List IncRow)
    (hcur : current_season year month = 2023)
    (hfetch : ∀ r ∈ fetch (.seasons [2023]),
        r.season = 2023 ∧ 1 ≤ r.week ∧ r.week ≤ 22) :
    (extract_incremental year month false (some (2023, 10)) fetch).1 = .seasons [2023]
    ∧ ∀ r ∈ (extract_incremental year month false (some (2023, 10)) fetch).2,
        r.season = 2023 ∧ 11 ≤ r.week ∧ r.week ≤ 22 := by
  unfold extract_incremental
  rw [hcur]
  norm_num
  intro r hmem hw
  have h := hfetch r hmem
  exact ⟨h.1, by omega, h.2.2⟩

/-- C7 witness: the hypotheses hold for a concrete date (October 2023)
and a concrete season-2023 provider. -/
theorem C7_incremental_week_case_witness :
    (current_season 2023 10 = 2023
      ∧ ∀ r ∈ c7Fetch (.seasons [2023]), r.season = 2023 ∧ 1 ≤ r.week ∧ r.week ≤ 22)
    ∧ ((extract_incremental 2023 10 false (some (2023, 10)) c7Fetch).1 = .seasons [2023]
      ∧ ∀ r ∈ (extract_incremental 2023 10 false (some (2023, 10)) c7Fetch).2,
          r.season = 2023 ∧ 11 ≤ r.week ∧ r.week ≤ 22) :=
  ⟨⟨by decide, by decide⟩,
   C7_incremental_week_case 2023 10 c7Fetch (by decide) (by decide)⟩

/-- C5: on a play-by-play batch, the row whose `yards_gained` is -150
(configured range [-99, 99]) is kept with the value capped to -99, while
the row whose season is 1899 is removed entirely; both violations appear
in the issue list. -/
theorem C5_drop_vs_cap :
    ((validate 2025 dfC5).1.rows.map fun r => r "yards_gained") = [some (-99)]
    ∧ ((validate 2025 dfC5).1.rows.map fun r => r "season") = [some 2023]
    ∧ (validate 2025 dfC5).1.rows.length = 1
    ∧ (validate 2025 dfC5).2 = [.invalidSeasons 1, .outOfRange "yards_gained" 1] := by
  decide

/-- Duplicate removal only ever reports duplicate-play issues. -/
theorem dupStep_issue_shape (cols : List String) (rows : List VRow) :
    ∀ e ∈ (dupStep cols rows).2, capIssueB e = false ∧ nullIssueB e = false := by
  intro e he
  simp only [dupStep] at he
  split_ifs at he <;> simp_all [capIssueB, nullIssueB]

/-- The season check only ever reports invalid-season issues. -/
theorem seasonStep_issue_shape (y : ℤ) (cols : List String) (rows : List VRow) :
    ∀ e ∈ (seasonStep y cols rows).2, capIssueB e = false ∧ nullIssueB e = false := by
  intro e he
  simp only [seasonStep] at he
  split_ifs at he <;> simp_all [capIssueB, nullIssueB]

/-- The week check only ever reports invalid-week issues. -/
theorem weekStep_issue_shape (cols : List String) (rows : List VRow) :
    ∀ e ∈ (weekStep cols rows).2, capIssueB e = false ∧ nullIssueB e = false := by
  intro e he
  simp only [weekStep] at he
  split_ifs at he <;> simp_all [capIssueB, nullIssueB]

/-- The null-drop loop only ever appends null-value issues. -/
theorem nullStep_issue_shape (req : List String) :
    ∀ st : List VRow × List VIssue, (∀ e ∈ st.2, nullIssueB e = true) →
      ∀ e ∈ (nullStep req st).2, nullIssueB e = true := by
  induction req with
  | nil => intro st h e he; exact h e he
  | cons c req ih =>
    intro st h e he
    simp only [nullStep] at he
    split_ifs at he
    · refine ih _ ?_ e he
      intro x hx
      rcases List.mem_append.mp hx with hx | hx
      · exact h x hx
      · simp only [List.mem_singleton] at hx
        subst hx
        rfl
    · exact ih st h e he

/-- The capping loop only ever appends out-of-range issues. -/
theorem capRun_issue_shape (cols : List String) (vs : List (String × ℚ × ℚ)) :
    ∀ st : List VRow × List VIssue, (∀ e ∈ st.2, capIssueB e = true) →
      ∀ e ∈ (capRun cols vs st).2, capIssueB e = true := by
  induction vs with
  | nil => intro st h e he; exact h e he
  | cons v vs ih =>
    intro st h e he
    simp only [capRun] at he
    split_ifs at he
    · refine ih _ ?_ e he
      intro x hx
      rcases List.mem_append.mp hx with hx | hx
      · exact h x hx
      · simp only [List.mem_singleton] at hx
        subst hx
        rfl
    · exact ih st h e he
    · exact ih st h e he

/-- A null issue is never a capping issue. -/
theorem nullIssueB_not_cap (e : VIssue) (h : nullIssueB e = true) :
    capIssueB e = false := by
  cases e <;> simp_all [capIssueB, nullIssueB]

/-- A capping issue is never a null issue. -/
theorem capIssueB_not_null (e : VIssue) (h : capIssueB e = true) :
    nullIssueB e = false := by
  cases e <;> simp_all [capIssueB, nullIssueB]

/-- The validator's issue list splits into a cap-free part followed by a
null-free part: null-drop issues always come before capping issues. -/
theorem validate_issues_split (y : ℤ) (df : VFrame) :
    ∃ A B, (validate y df).2 = A ++ B
      ∧ (∀ e ∈ A, capIssueB e = false)
      ∧ (∀ e ∈ B, nullIssueB e = false) := by
  simp only [validate]
  split_ifs with hm
  · refine ⟨(dupStep df.cols df.rows).2
        ++ (seasonStep y df.cols (dupStep df.cols df.rows).1).2
        ++ (weekStep df.cols (seasonStep y df.cols (dupStep df.cols df.rows).1).1).2
        ++ (nullStep (requiredCols df.cols)
              ((weekStep df.cols (seasonStep y df.cols (dupStep df.cols df.rows).1).1).1, [])).2,
      (capStep df.cols
        ((nullStep (requiredCols df.cols)
            ((weekStep df.cols (seasonStep y df.cols (dupStep df.cols df.rows).1).1).1, [])).1, [])).2,
      by simp, ?_, ?_⟩
    · intro e he
      rcases List.mem_append.mp he with he | he
      · rcases List.mem_append.mp he with he | he
        · rcases List.mem_append.mp he with he | he
          · exact (dupStep_issue_shape _ _ e he).1
          · exact (seasonStep_issue_shape _ _ _ e he).1
        · exact (weekStep_issue_shape _ _ e he).1
      · exact nullIssueB_not_cap e (nullStep_issue_shape _ _ (by simp) e he)
    · intro e he
      exact capIssueB_not_null e (capRun_issue_shape _ _ _ (by simp) e he)
  · refine ⟨[_], [], by rfl, ?_, by simp⟩
    intro e he
    simp only [List.mem_singleton] at he
    subst he
    rfl

/-- C6 amended: the validator runs required-column rejection, duplicate
removal, season drop, week drop, null-drop on required fields, and then
numeric capping, appending issues in that order; consequently every
null-in-required-field issue precedes every numeric-capping issue in the
report (the claim's order of steps 4 and 5 is swapped). -/
theorem C6_issue_order (y : ℤ) (df : VFrame) (i j : ℕ) (e1 e2 : VIssue)
    (hi : (validate y df).2[i]? = some e1) (hc : capIssueB e1 = true)
    (hj : (validate y df).2[j]? = some e2) (hn : nullIssueB e2 = true) :
    j < i := by
  obtain ⟨A, B, hAB, hA, hB⟩ := validate_issues_split y df
  rw [hAB] at hi hj
  have hiA : ¬ i < A.length := by
    intro hlt
    rw [List.getElem?_append_left hlt] at hi
    have := hA e1 (List.getElem?_mem hi)
    rw [hc] at this
    exact absurd this (by simp)
  have hjA : j < A.length := by
    by_contra hge
    push_neg at hge
    rw [List.getElem?_append_right hge] at hj
    have := hB e2 (List.getElem?_mem hj)
    rw [hn] at this
    exact absurd this (by simp)
  omega

/-- C6 witness: on a concrete batch the null issue sits at index 0,
before the capping issue at index 1. -/
theorem C6_issue_order_witness :
    ((validate 2025 dfC6).2[1]? = some (.outOfRange "yards_gained" 1)
      ∧ (validate 2025 dfC6).2[0]? = some (.nullValues "week" 1))
    ∧ 0 < 1 :=
  ⟨⟨by decide, by decide⟩,
   C6_issue_order 2025 dfC6 1 0 (.outOfRange "yards_gained" 1) (.nullValues "week" 1)
     (by decide) rfl (by decide) rfl⟩

/-- C6 counterexample: the validator's report on a concrete batch is
[null-in-required-field, capping] — the capping issue does not precede
the null issue, refuting the claimed step order. -/
theorem C6_counterexample :
    (validate 2025 dfC6).2 = [.nullValues "week" 1, .outOfRange "yards_gained" 1]
    ∧ ¬ (∀ (i j : ℕ) (e1 e2 : VIssue),
        (validate 2025 dfC6).2[i]? = some e1 → capIssueB e1 = true →
        (validate 2025 dfC6).2[j]? = some e2 → nullIssueB e2 = true →
        i < j) := by
  refine ⟨by decide, fun h => ?_⟩
  exact absurd
    (h 1 0 (.outOfRange "yards_gained" 1) (.nullValues "week" 1)
      (by decide) rfl (by decide) rfl)
    (by omega)

/-- When every attempt in the processed window raises, the retry loop
returns no data, one logged failure per attempt in order, and consumes
every attempt. -/
theorem retryLoop_all_raises (fetch : ℕ → AttemptResult) (msgs : ℕ → String) :
    ∀ (k i : ℕ), (∀ j, j < k → fetch (i + j) = .raises (msgs (i + j))) →
      retryLoop fetch i k =
        (none, (List.range k).map (fun j => .attemptFailure (i + j + 1) (msgs (i + j))), k) := by
  intro k
  induction k with
  | zero => intro i _; rfl
  | succ k ih =>
    intro i h
    have h0 : fetch i = .raises (msgs i) := by simpa using h 0 (Nat.succ_pos k)
    have hrec := ih (i + 1) (fun j hj => by
      have hx := h (j + 1) (by omega)
      have e : i + (j + 1) = i + 1 + j := by omega
      rw [e] at hx
      exact hx)
    simp only [retryLoop, h0, hrec]
    have hl : (List.range k).map
          (fun j => ExtractionFailure.attemptFailure (i + 1 + j + 1) (msgs (i + 1 + j)))
        = (List.range k).map
            ((fun j => ExtractionFailure.attemptFailure (i + j + 1) (msgs (i + j))) ∘ Nat.succ) := by
      apply List.map_congr_left
      intro j _
      simp only [Function.comp]
      have e : i + 1 + j = i + (j + 1) := by omega
      rw [e]
    simp [List.range_succ_eq_map, List.map_map, hl]

/-- C2 amended: when every one of the R configured attempts raises,
`extract_with_retry` returns None and `run_extraction` reports the final
status `no_data` — not `error` — with all R attempts' failures logged in
order; `error` arises only when the validate/load stage itself raises. -/
theorem C2_all_raises_no_data (R : ℕ) (fetch : ℕ → AttemptResult) (msgs : ℕ → String)
    (validateFn : List ℚ → Except String (List ℚ × List String)) (loadFn : List ℚ → Bool)
    (h : ∀ i, i < R → fetch i = .raises (msgs i)) :
    (run_extraction fetch R validateFn loadFn).1 = "no_data"
    ∧ (run_extraction fetch R validateFn loadFn).2
        = (List.range R).map fun i => .attemptFailure (i + 1) (msgs i) := by
  have haux := retryLoop_all_raises fetch msgs R 0 (by intro j hj; simpa using h j hj)
  unfold run_extraction extract_with_retry
  rw [haux]
  simp

/-- C2 amended witness: three raising attempts yield the `no_data`
status. -/
theorem C2_all_raises_no_data_witness :
    (∀ i, i < 3 → alwaysRaises i = .raises "boom")
    ∧ (run_extraction alwaysRaises 3 acceptAllValidate alwaysOkLoad).1 = "no_data" :=
  ⟨fun _ _ => rfl,
   (C2_all_raises_no_data 3 alwaysRaises (fun _ => "boom") acceptAllValidate alwaysOkLoad
      (fun _ _ => rfl)).1⟩

/-- C2 counterexample: with three raising attempts the final status is
`no_data`, not `error` (all three failures are logged). -/
theorem C2_counterexample :
    (run_extraction alwaysRaises 3 acceptAllValidate alwaysOkLoad).1 = "no_data"
    ∧ (run_extraction alwaysRaises 3 acceptAllValidate alwaysOkLoad).2
        = [.attemptFailure 1 "boom", .attemptFailure 2 "boom", .attemptFailure 3 "boom"]
    ∧ ¬ (run_extraction alwaysRaises 3 acceptAllValidate alwaysOkLoad).1 = "error" := by
  decide

/-- When every attempt in the processed window returns an empty dataset,
the retry loop consumes every attempt, logs nothing, and returns no
data. -/
theorem retryLoop_all_empty (fetch : ℕ → AttemptResult) :
    ∀ (k i : ℕ), (∀ j, j < k → fetch (i + j) = .returns []) →
      retryLoop fetch i k = (none, [], k) := by
  intro k
  induction k with
  | zero => intro i _; rfl
  | succ k ih =>
    intro i h
    have h0 : fetch i = .returns [] := by simpa using h 0 (Nat.succ_pos k)
    have hrec := ih (i + 1) (fun j hj => by
      have hx := h (j + 1) (by omega)
      have e : i + (j + 1) = i + 1 + j := by omega
      rw [e] at hx
      exact hx)
    simp [retryLoop, h0, hrec]

/-- C3 amended: a present-but-empty non-raising attempt does not
terminate the retry loop — the controller keeps attempting (without
logging a failure); when all R attempts return empty, all R attempts are
consumed and the run's final status is `no_data`. -/
theorem C3_empty_is_retried (R : ℕ) (fetch : ℕ → AttemptResult)
    (validateFn : List ℚ → Except String (List ℚ × List String)) (loadFn : List ℚ → Bool)
    (h : ∀ i, i < R → fetch i = .returns []) :
    extract_with_retry fetch R = (none, [], R)
    ∧ (run_extraction fetch R validateFn loadFn).1 = "no_data" := by
  have haux := retryLoop_all_empty fetch R 0 (by intro j hj; simpa using h j hj)
  refine ⟨haux, ?_⟩
  unfold run_extraction extract_with_retry
  rw [haux]

/-- C3 amended witness: three empty attempts are all consumed and the
status is `no_data`. -/
theorem C3_empty_is_retried_witness :
    (∀ i, i < 3 → alwaysEmpty i = .returns [])
    ∧ extract_with_retry alwaysEmpty 3 = (none, [], 3)
    ∧ (run_extraction alwaysEmpty 3 acceptAllValidate alwaysOkLoad).1 = "no_data" :=
  ⟨fun _ _ => rfl,
   (C3_empty_is_retried 3 alwaysEmpty acceptAllValidate alwaysOkLoad (fun _ _ => rfl)).1,
   (C3_empty_is_retried 3 alwaysEmpty acceptAllValidate alwaysOkLoad (fun _ _ => rfl)).2⟩

/-- C3 counterexample: an empty first attempt is followed by a second
attempt (2 attempts made, not 1), and since that second attempt returns
data the outcome is `success`, not `no_data`. -/
theorem C3_counterexample :
    (run_extraction emptyThenData 3 acceptAllValidate alwaysOkLoad).1 = "success"
    ∧ (extract_with_retry emptyThenData 3).2.2 = 2
    ∧ ¬ (run_extraction emptyThenData 3 acceptAllValidate alwaysOkLoad).1 = "no_data"
    ∧ ¬ ((extract_with_retry emptyThenData 3).2.2 ≤ 1) := by
  decide

/-- Splitting a sum by a key filter and its complement. -/
theorem sum_filter_split {A K : Type} [DecidableEq K] (key : A → K) (val : A → ℚ)
    (k : K) (rows : List A) :
    ((rows.filter fun r => key r = k).map val).sum
      + ((rows.filter fun r => ¬ key r = k).map val).sum = (rows.map val).sum := by
  induction rows with
  | nil => simp
  | cons a t ih =>
    simp only [decide_not] at ih
    by_cases h : key a = k
    · simp [List.filter_cons, h]
      linarith [ih]
    · simp [List.filter_cons, h]
      linarith [ih]

/-- Summing group sums over a complete duplicate-free key list recovers
the total sum. -/
theorem sum_over_groups {A K : Type} [DecidableEq K] (key : A → K) (val : A → ℚ) :
    ∀ ks : List K, ks.Nodup → ∀ rows : List A, (∀ r ∈ rows, key r ∈ ks) →
      (ks.map fun k => ((rows.filter fun r => key r = k).map val).sum).sum
        = (rows.map val).sum := by
  intro ks
  induction ks with
  | nil =>
    intro _ rows hall
    cases rows with
    | nil => simp
    | cons a t => exact absurd (hall a (List.mem_cons_self a t)) (List.not_mem_nil _)
  | cons k ks ih =>
    intro hnd rows hall
    have hk : ¬ k ∈ ks := (List.nodup_cons.mp hnd).1
    have hnd2 : ks.Nodup := (List.nodup_cons.mp hnd).2
    have hfib : ∀ k2 ∈ ks,
        ((rows.filter fun r => ¬ key r = k).filter fun r => key r = k2)
          = rows.filter fun r => key r = k2 := by
      intro k2 hk2
      rw [List.filter_filter]
      apply List.filter_congr
      intro r _
      by_cases hr : key r = k2
      · have hne : ¬ key r = k := by
          intro hkk
          have hx : k = k2 := by rw [← hkk, hr]
          exact hk (hx ▸ hk2)
        simp [hr, hne]
        intro e
        exact hk (e ▸ hk2)
      · simp [hr]
    have hmap : (ks.map fun k2 => ((rows.filter fun r => key r = k2).map val).sum)
        = ks.map fun k2 =>
            (((rows.filter fun r => ¬ key r = k).filter fun r => key r = k2).map val).sum := by
      apply List.map_congr_left
      intro k2 hk2
      rw [hfib k2 hk2]
    have hall2 : ∀ r ∈ rows.filter fun r => ¬ key r = k, key r ∈ ks := by
      intro r hr
      have hm := List.mem_filter.mp hr
      have hne : ¬ key r = k := by simpa using hm.2
      have := hall r hm.1
      simp only [List.mem_cons] at this
      rcases this with h | h
      · exact absurd h hne
      · exact h
    rw [List.map_cons, List.sum_cons, hmap, ih hnd2 _ hall2]
    exact sum_filter_split key val k rows

/-- Grouping by the distinct keys of a batch and summing each group
preserves the total. -/
theorem sum_dedup_groups {A K : Type} [DecidableEq K] (key : A → K) (val : A → ℚ)
    (rows : List A) :
    (((rows.map key).dedup).map fun k =>
        ((rows.filter fun r => key r = k).map val).sum).sum
      = (rows.map val).sum :=
  sum_over_groups key val _ (List.nodup_dedup _) rows
    (fun _ hr => List.mem_dedup.mpr (List.mem_map_of_mem key hr))

/-- A summed stat column is never one of the efficiency-ratio output
columns, so `_calculate_efficiency_metrics` leaves it unchanged. -/
theorem effStats_sum_col (cols : List String) (f : String → ℚ) (c : String)
    (h : c ∈ SUM_COLUMNS) : effStats cols f c = f c := by
  have hd : ∀ x ∈ SUM_COLUMNS,
      ¬ (x = "completion_pct" ∨ x = "catch_rate" ∨ x = "yards_per_attempt" ∨
         x = "yards_per_carry" ∨ x = "yards_per_reception" ∨ x = "yards_per_target" ∨
         x = "passing_td_rate" ∨ x = "red_zone_td_rate") := by decide
  have h1 : ¬ c = "completion_pct" := fun e => hd c h (by simp [e])
  have h2 : ¬ c = "catch_rate" := fun e => hd c h (by simp [e])
  have h3 : ¬ c = "yards_per_attempt" := fun e => hd c h (by simp [e])
  have h4 : ¬ c = "yards_per_carry" := fun e => hd c h (by simp [e])
  have h5 : ¬ c = "yards_per_reception" := fun e => hd c h (by simp [e])
  have h6 : ¬ c = "yards_per_target" := fun e => hd c h (by simp [e])
  have h7 : ¬ c = "passing_td_rate" := fun e => hd c h (by simp [e])
  have h8 : ¬ c = "red_zone_td_rate" := fun e => hd c h (by simp [e])
  simp [effStats, h1, h2, h3, h4, h5, h6, h7, h8]

/-- A present summed column aggregates to the group sum at week level. -/
theorem weekAggStats_sum_col (cols : List String) (g : List GRow) (c : String)
    (h1 : c ∈ SUM_COLUMNS) (h2 : c ∈ cols) :
    weekAggStats cols g c = (g.map fun r => r.stats c).sum := by
  simp [weekAggStats, h1, h2]

/-- C1: roll-up exactness — for every batch and every summed stat column
present in it, the column's total over the week-level output equals its
total over the game-level input, and the season-level `total_c` column's
total equals the column's total over the week-level input (no double
counting, nothing dropped by aggregation). -/
theorem C1_rollup_exactness :
    (∀ (cols : List String) (rows : List GRow) (c : String),
        c ∈ SUM_COLUMNS → c ∈ cols →
        ((aggregate_to_week_level cols rows).map fun w => w.stats c).sum
          = (rows.map fun r => r.stats c).sum)
    ∧ (∀ (cols : List String) (wrows : List WRow) (c : String),
        c ∈ SUM_COLUMNS → c ∈ cols →
        ((aggregate_to_season_level cols wrows).map fun s => s.totals c).sum
          = (wrows.map fun w => w.stats c).sum) := by
  constructor
  · intro cols rows c h1 h2
    unfold aggregate_to_week_level
    rw [List.map_map]
    have hmap : ((rows.map weekKeyOf).dedup).map ((fun w => w.stats c) ∘ weekRowOf cols rows)
        = ((rows.map weekKeyOf).dedup).map fun k =>
            ((rows.filter fun r => weekKeyOf r = k).map fun r => r.stats c).sum := by
      apply List.map_congr_left
      intro k _
      show (weekRowOf cols rows k).stats c = _
      show effStats (weekFrameCols cols)
        (weekAggStats cols (rows.filter fun r => weekKeyOf r = k)) c = _
      rw [effStats_sum_col _ _ c h1]
      exact weekAggStats_sum_col cols _ c h1 h2
    rw [hmap]
    exact sum_dedup_groups weekKeyOf (fun r => r.stats c) rows
  · intro cols wrows c h1 h2
    unfold aggregate_to_season_level
    rw [List.map_map]
    have hmap : ((wrows.map seasonKeyOf).dedup).map
          ((fun s => s.totals c) ∘ seasonRowOf cols wrows)
        = ((wrows.map seasonKeyOf).dedup).map fun k =>
            ((wrows.filter fun w => seasonKeyOf w = k).map fun w => w.stats c).sum := by
      apply List.map_congr_left
      intro k _
      show (seasonRowOf cols wrows k).totals c = _
      show (if c ∈ SUM_COLUMNS ∧ c ∈ cols then
          ((wrows.filter fun w => seasonKeyOf w = k).map fun w => w.stats c).sum else 0) = _
      rw [if_pos ⟨h1, h2⟩]
    rw [hmap]
    exact sum_dedup_groups seasonKeyOf (fun w => w.stats c) wrows

/-- C1 witness: the roll-up hypotheses hold for the `receptions` column
of a concrete two-game batch. -/
theorem C1_rollup_exactness_witness :
    ("receptions" ∈ SUM_COLUMNS ∧ "receptions" ∈ ["receptions"])
    ∧ ((aggregate_to_week_level ["receptions"] c1Rows).map fun w => w.stats "receptions").sum
        = (c1Rows.map fun r => r.stats "receptions").sum :=
  ⟨⟨by decide, by decide⟩,
   C1_rollup_exactness.1 ["receptions"] c1Rows "receptions" (by decide) (by decide)⟩

/-- C8 amended: season-level per-game averages of the summed counting
stats are indeed rewritten from raw sums — `avg_c = round2 (total_c /
games_played)` for every present `SUM_COLUMNS` column `c` — while (per
the counterexample) the `MEAN_COLUMNS` rate fields are carried to season
level as plain means of the per-week rates. -/
theorem C8_per_game_averages (cols : List String) (wrows : List WRow) (c : String)
    (h1 : c ∈ SUM_COLUMNS) (h2 : c ∈ cols) :
    ∀ s ∈ aggregate_to_season_level cols wrows,
      s.avgs c = round2 (s.totals c / s.games_played) := by
  intro s hs
  unfold aggregate_to_season_level at hs
  obtain ⟨k, hk, rfl⟩ := List.mem_map.mp hs
  simp [seasonRowOf, h1, h2]

/-- C8 amended witness: the hypotheses hold for the `receptions` column
of a concrete two-week batch. -/
theorem C8_per_game_averages_witness :
    ("receptions" ∈ SUM_COLUMNS ∧ "receptions" ∈ c8Cols)
    ∧ ∀ s ∈ aggregate_to_season_level c8Cols [c8Week1, c8Week2],
        s.avgs "receptions" = round2 (s.totals "receptions" / s.games_played) :=
  ⟨⟨by decide, by decide⟩,
   C8_per_game_averages c8Cols [c8Week1, c8Week2] "receptions" (by decide) (by decide)⟩

/-- C8 counterexample: at season level the `catch_rate` value is the
arithmetic mean of the per-week already-averaged rates, (50 + 75) / 2 =
62.5 — not the raw-sums value round2(4/6·100) = 66.67 the claim
requires for every averaged/rate field. -/
theorem C8_counterexample :
    ((aggregate_to_season_level c8Cols [c8Week1, c8Week2]).map fun s => s.avgs "catch_rate")
      = [125 / 2]
    ∧ (125 / 2 : ℚ) = ((50 : ℚ) + 75) / 2
    ∧ ¬ (125 / 2 : ℚ) = round2 (((1 : ℚ) + 3) / ((2 : ℚ) + 4) * 100) := by
  refine ⟨?_, by norm_num, ?_⟩
  · have hkeys : (([c8Week1, c8Week2].map seasonKeyOf).dedup)
        = [⟨"p1", "A", "WR", "T", 2023⟩] := by decide
    unfold aggregate_to_season_level
    rw [hkeys]
    simp only [List.map_cons, List.map_nil]
    congr 1
    have hflt : ([c8Week1, c8Week2].filter fun w =>
        seasonKeyOf w = (⟨"p1", "A", "WR", "T", 2023⟩ : SKey)) = [c8Week1, c8Week2] := by
      simp [c8Week1, c8Week2, seasonKeyOf]
    have hs : ¬ ("catch_rate" ∈ SUM_COLUMNS ∧ "catch_rate" ∈ c8Cols) := by decide
    have hm : "catch_rate" ∈ MEAN_COLUMNS ∧ "catch_rate" ∈ c8Cols := by decide
    simp only [seasonRowOf, hflt, if_neg hs, if_pos hm]
    have e1 : ¬ ("catch_rate" : String) = "receptions" := by decide
    have e2 : ¬ ("catch_rate" : String) = "targets" := by decide
    simp only [c8Week1, c8Week2, List.map_cons, List.map_nil, if_neg e1, if_neg e2]
    norm_num
  · have hval : round2 (((1 : ℚ) + 3) / ((2 : ℚ) + 4) * 100) = 6667 / 100 := by
      have harg : ((1 : ℚ) + 3) / ((2 : ℚ) + 4) * 100 * 100 = 20000 / 3 := by norm_num
      unfold round2 roundHalfEven
      rw [harg]
      have hfl : ⌊(20000 / 3 : ℚ)⌋ = 6666 := by
        rw [Int.floor_eq_iff]
        constructor <;> norm_num
      rw [hfl]
      norm_num
    intro h
    rw [hval] at h
    norm_num at h

end NFLPipeline
